import Mathlib

/-!
Verification of the libadlmidi-js real-time synthesis bridge.

Shallow embedding of:
- the struct codec in `src/utils/struct.js` (`decodeOperator` / `encodeOperator`,
  `decodeInstrument` / `encodeInstrument`, `defaultOperator`),
- the AudioWorklet processor (`AdlMidiProcessor`) message/render state machine,
- the low-level `AdlMidiCore` render-buffer lifecycle,
- the main-thread `AdlMidi` one-shot handler registry and init handshake.

Bytes are modelled as `Nat` (values `< 256` where the claim so requires); JS
bitwise operators map to `&&&`, `|||`, `<<<`, `>>>` on `Nat`; the external
WASM engine is modelled as an oracle record supplying the results of its
entry points, while the calls issued to it are logged in an effect list.
-/

namespace Adl

/-- OPL3 operator with named register fields (struct.js `Operator` typedef). -/
structure Operator where
  am : Bool
  vibrato : Bool
  sustaining : Bool
  ksr : Bool
  freqMult : Nat
  keyScaleLevel : Nat
  totalLevel : Nat
  attack : Nat
  decay : Nat
  sustain : Nat
  release : Nat
  waveform : Nat
deriving DecidableEq

/-- struct.js `decodeOperator`: decode 5 register bytes to named fields.
Indexing a missing byte yields `0`, matching JS bitwise coercion of
`undefined` to `0`. -/
def decodeOperator (bytes : List Nat) : Operator :=
  let avekf := bytes.getD 0 0
  let ksl_l := bytes.getD 1 0
  let atdec := bytes.getD 2 0
  let susrel := bytes.getD 3 0
  let wf := bytes.getD 4 0
  { am := avekf &&& 0x80 != 0
    vibrato := avekf &&& 0x40 != 0
    sustaining := avekf &&& 0x20 != 0
    ksr := avekf &&& 0x10 != 0
    freqMult := avekf &&& 0x0F
    keyScaleLevel := (ksl_l >>> 6) &&& 0x03
    totalLevel := ksl_l &&& 0x3F
    attack := (atdec >>> 4) &&& 0x0F
    decay := atdec &&& 0x0F
    sustain := (susrel >>> 4) &&& 0x0F
    release := susrel &&& 0x0F
    waveform := wf &&& 0x07 }

/-- struct.js `encodeOperator`: encode named fields to 5 register bytes. -/
def encodeOperator (op : Operator) : List Nat :=
  let avekf :=
    (if op.am then 0x80 else 0) |||
    (if op.vibrato then 0x40 else 0) |||
    (if op.sustaining then 0x20 else 0) |||
    (if op.ksr then 0x10 else 0) |||
    (op.freqMult &&& 0x0F)
  let ksl_l := ((op.keyScaleLevel &&& 0x03) <<< 6) ||| (op.totalLevel &&& 0x3F)
  let atdec := ((op.attack &&& 0x0F) <<< 4) ||| (op.decay &&& 0x0F)
  let susrel := ((op.sustain &&& 0x0F) <<< 4) ||| (op.release &&& 0x0F)
  let wf := op.waveform &&& 0x07
  [avekf, ksl_l, atdec, susrel, wf]

/-- struct.js `defaultOperator`: silent operator defaults. -/
def defaultOperator : Operator :=
  { am := false, vibrato := false, sustaining := true, ksr := false
    freqMult := 1, keyScaleLevel := 0, totalLevel := 63
    attack := 15, decay := 0, sustain := 0, release := 15, waveform := 0 }

/-- Documented field ranges of an Operator (booleans are always in range). -/
def validOperator (op : Operator) : Prop :=
  op.freqMult < 16 ∧ op.keyScaleLevel < 4 ∧ op.totalLevel < 64 ∧
  op.attack < 16 ∧ op.decay < 16 ∧ op.sustain < 16 ∧ op.release < 16 ∧
  op.waveform < 8

instance (op : Operator) : Decidable (validOperator op) := by
  unfold validOperator; infer_instance

/-- Decoding the encoding of an in-range operator restores every field. -/
theorem decode_encode_op (op : Operator) (h : validOperator op) :
    decodeOperator (encodeOperator op) = op := by
  obtain ⟨a, v, s, k, f, ksl, tl, ar, dr, su, rr, w⟩ := op
  obtain ⟨hf, hksl, htl, har, hdr, hsu, hrr, hw⟩ := h
  dsimp only at hf hksl htl har hdr hsu hrr hw
  have e : decodeOperator (encodeOperator (Operator.mk a v s k f ksl tl ar dr su rr w)) =
      Operator.mk
        (((if a then 0x80 else 0) ||| (if v then 0x40 else 0) ||| (if s then 0x20 else 0) |||
          (if k then 0x10 else 0) ||| (f &&& 0x0F)) &&& 0x80 != 0)
        (((if a then 0x80 else 0) ||| (if v then 0x40 else 0) ||| (if s then 0x20 else 0) |||
          (if k then 0x10 else 0) ||| (f &&& 0x0F)) &&& 0x40 != 0)
        (((if a then 0x80 else 0) ||| (if v then 0x40 else 0) ||| (if s then 0x20 else 0) |||
          (if k then 0x10 else 0) ||| (f &&& 0x0F)) &&& 0x20 != 0)
        (((if a then 0x80 else 0) ||| (if v then 0x40 else 0) ||| (if s then 0x20 else 0) |||
          (if k then 0x10 else 0) ||| (f &&& 0x0F)) &&& 0x10 != 0)
        (((if a then 0x80 else 0) ||| (if v then 0x40 else 0) ||| (if s then 0x20 else 0) |||
          (if k then 0x10 else 0) ||| (f &&& 0x0F)) &&& 0x0F)
        (((((ksl &&& 0x03) <<< 6) ||| (tl &&& 0x3F)) >>> 6) &&& 0x03)
        ((((ksl &&& 0x03) <<< 6) ||| (tl &&& 0x3F)) &&& 0x3F)
        (((((ar &&& 0x0F) <<< 4) ||| (dr &&& 0x0F)) >>> 4) &&& 0x0F)
        ((((ar &&& 0x0F) <<< 4) ||| (dr &&& 0x0F)) &&& 0x0F)
        (((((su &&& 0x0F) <<< 4) ||| (rr &&& 0x0F)) >>> 4) &&& 0x0F)
        ((((su &&& 0x0F) <<< 4) ||| (rr &&& 0x0F)) &&& 0x0F)
        ((w &&& 0x07) &&& 0x07) := rfl
  rw [e]
  clear e
  simp only [Operator.mk.injEq]
  refine ⟨?_, ?_, ?_, ?_, ?_, ?_, ?_, ?_, ?_, ?_, ?_, ?_⟩
  · revert f; revert k; revert s; revert v; revert a; decide
  · revert f; revert k; revert s; revert v; revert a; decide
  · revert f; revert k; revert s; revert v; revert a; decide
  · revert f; revert k; revert s; revert v; revert a; decide
  · revert f; revert k; revert s; revert v; revert a; decide
  · revert tl; revert ksl; decide
  · revert tl; revert ksl; decide
  · revert dr; revert ar; decide
  · revert dr; revert ar; decide
  · revert rr; revert su; decide
  · revert rr; revert su; decide
  · revert w; decide

set_option maxRecDepth 4000 in
/-- Encoding the decoding of any 5-byte buffer reproduces the masked register
bits: bytes 0-3 use all 8 bits, byte 4 is masked to its low 3 bits. -/
theorem encode_decode_op (b0 b1 b2 b3 b4 : Nat)
    (h0 : b0 < 256) (h1 : b1 < 256) (h2 : b2 < 256) (h3 : b3 < 256) (h4 : b4 < 256) :
    encodeOperator (decodeOperator [b0, b1, b2, b3, b4]) = [b0, b1, b2, b3, b4 &&& 0x07] := by
  have e : encodeOperator (decodeOperator [b0, b1, b2, b3, b4]) =
      [(if (b0 &&& 0x80 != 0) = true then 0x80 else 0) |||
         (if (b0 &&& 0x40 != 0) = true then 0x40 else 0) |||
         (if (b0 &&& 0x20 != 0) = true then 0x20 else 0) |||
         (if (b0 &&& 0x10 != 0) = true then 0x10 else 0) ||| ((b0 &&& 0x0F) &&& 0x0F),
       ((((b1 >>> 6) &&& 0x03) &&& 0x03) <<< 6) ||| ((b1 &&& 0x3F) &&& 0x3F),
       ((((b2 >>> 4) &&& 0x0F) &&& 0x0F) <<< 4) ||| ((b2 &&& 0x0F) &&& 0x0F),
       ((((b3 >>> 4) &&& 0x0F) &&& 0x0F) <<< 4) ||| ((b3 &&& 0x0F) &&& 0x0F),
       (b4 &&& 0x07) &&& 0x07] := rfl
  rw [e]
  clear e
  simp only [List.cons.injEq, and_true]
  refine ⟨?_, ?_, ?_, ?_, ?_⟩
  · revert b0; decide
  · revert b1; decide
  · revert b2; decide
  · revert b3; decide
  · revert b4; decide

/-- C1: `decodeOperator` and `encodeOperator` are mutual inverses over the
masked value space: decoding the encoding of any in-range Operator restores
every field, and encoding the decoding of any 5-byte buffer reproduces the
masked register bits (bytes 0-3 unchanged, byte 4 masked to 3 bits). -/
theorem claim_C1 :
    (∀ op : Operator, validOperator op → decodeOperator (encodeOperator op) = op) ∧
    (∀ b0 b1 b2 b3 b4 : Nat, b0 < 256 → b1 < 256 → b2 < 256 → b3 < 256 → b4 < 256 →
      encodeOperator (decodeOperator [b0, b1, b2, b3, b4]) =
        [b0, b1, b2, b3, b4 &&& 0x07]) :=
  ⟨decode_encode_op, encode_decode_op⟩

/-- Witness for C1 at concrete inputs. -/
theorem claim_C1_w :
    decodeOperator (encodeOperator
        (Operator.mk true false true false 7 2 33 4 5 6 7 3)) =
      Operator.mk true false true false 7 2 33 4 5 6 7 3 ∧
    encodeOperator (decodeOperator [0x21, 0x4C, 0xF2, 0x53, 0xFF]) =
      [0x21, 0x4C, 0xF2, 0x53, 0xFF &&& 0x07] :=
  ⟨claim_C1.1 _ (by decide),
   claim_C1.2 0x21 0x4C 0xF2 0x53 0xFF (by decide) (by decide) (by decide)
     (by decide) (by decide)⟩

/-! ### Instrument codec (struct.js `decodeInstrument` / `encodeInstrument`)

DataView semantics are modelled arithmetically: `setInt32/16/8` wrap the
value modulo `2^w` and store bytes little-endian, `getInt32/16/8` read the
unsigned little-endian value and reinterpret it as two's complement. -/

/-- Little-endian bytes stored by `DataView.setInt32(_, v, true)`. -/
def int32ToBytesLE (v : Int) : List Nat :=
  let n := (v % 4294967296).toNat
  [n % 256, n / 256 % 256, n / 65536 % 256, n / 16777216 % 256]

/-- Little-endian bytes stored by `DataView.setInt16(_, v, true)`. -/
def int16ToBytesLE (v : Int) : List Nat :=
  let n := (v % 65536).toNat
  [n % 256, n / 256 % 256]

/-- Byte stored by `DataView.setInt8(_, v)`. -/
def int8ToByte (v : Int) : Nat :=
  (v % 256).toNat

/-- Little-endian bytes stored by `DataView.setUint16(_, n, true)`. -/
def uint16ToBytesLE (n : Nat) : List Nat :=
  [n % 256, n / 256 % 256]

/-- Signed value read by `DataView.getInt32(_, true)` from 4 bytes. -/
def bytesToInt32LE (b0 b1 b2 b3 : Nat) : Int :=
  if b0 + 256 * b1 + 65536 * b2 + 16777216 * b3 < 2147483648 then
    ((b0 + 256 * b1 + 65536 * b2 + 16777216 * b3 : Nat) : Int)
  else ((b0 + 256 * b1 + 65536 * b2 + 16777216 * b3 : Nat) : Int) - 4294967296

/-- Signed value read by `DataView.getInt16(_, true)` from 2 bytes. -/
def bytesToInt16LE (b0 b1 : Nat) : Int :=
  if b0 + 256 * b1 < 32768 then ((b0 + 256 * b1 : Nat) : Int)
  else ((b0 + 256 * b1 : Nat) : Int) - 65536

/-- Signed value read by `DataView.getInt8` from one byte. -/
def byteToInt8 (b : Nat) : Int :=
  if b < 128 then (b : Int) else (b : Int) - 256

/-- Unsigned value read by `DataView.getUint16(_, true)` from 2 bytes. -/
def bytesToUint16LE (b0 b1 : Nat) : Nat :=
  b0 + 256 * b1

/-- OPL3 instrument (struct.js `Instrument` typedef). The `operators` array
may hold missing (`none`) entries, as a partial JS instrument object can. -/
structure Instrument where
  version : Int
  noteOffset1 : Int
  noteOffset2 : Int
  velocityOffset : Int
  secondVoiceDetune : Int
  percussionKey : Nat
  is4op : Bool
  isPseudo4op : Bool
  isBlank : Bool
  rhythmMode : Nat
  feedback1 : Nat
  connection1 : Nat
  feedback2 : Nat
  connection2 : Nat
  operators : List (Option Operator)
  delayOnMs : Nat
  delayOffMs : Nat
deriving DecidableEq

/-- struct.js `decodeInstrument`: decode a 40-byte `ADL_Instrument` buffer.
Layout: scalar header at offsets 0-13, four 5-byte operators at offset 14,
two little-endian `uint16` delays at offsets 34 and 36. -/
def decodeInstrument (bytes : List Nat) : Instrument :=
  let g := fun i => bytes.getD i 0
  { version := bytesToInt32LE (g 0) (g 1) (g 2) (g 3)
    noteOffset1 := bytesToInt16LE (g 4) (g 5)
    noteOffset2 := bytesToInt16LE (g 6) (g 7)
    velocityOffset := byteToInt8 (g 8)
    secondVoiceDetune := byteToInt8 (g 9)
    percussionKey := g 10
    is4op := (g 11) &&& 0x01 != 0
    isPseudo4op := (g 11) &&& 0x02 != 0
    isBlank := (g 11) &&& 0x04 != 0
    rhythmMode := ((g 11) >>> 3) &&& 0x07
    feedback1 := ((g 12) >>> 1) &&& 0x07
    connection1 := (g 12) &&& 0x01
    feedback2 := ((g 13) >>> 1) &&& 0x07
    connection2 := (g 13) &&& 0x01
    operators :=
      [some (decodeOperator ((bytes.drop 14).take 5)),
       some (decodeOperator ((bytes.drop 19).take 5)),
       some (decodeOperator ((bytes.drop 24).take 5)),
       some (decodeOperator ((bytes.drop 29).take 5))]
    delayOnMs := bytesToUint16LE (g 34) (g 35)
    delayOffMs := bytesToUint16LE (g 36) (g 37) }

/-- Operator used for slot `i` by `encodeInstrument`: the instrument's entry
when present, else `defaultOperator` (JS `inst.operators?.[i] || defaultOperator()`). -/
def slotOperator (inst : Instrument) (i : Nat) : Operator :=
  (inst.operators.getD i none).getD defaultOperator

/-- struct.js `encodeInstrument`: encode an instrument to its 40-byte
`ADL_Instrument` buffer. Each `++` boundary marks the next write offset:
version at 0, note offsets at 4 and 6, the six single bytes at 8-13, the
four operators at 14/19/24/29, the delays at 34 and 36, and the two
trailing padding bytes of the 40-byte struct. -/
def encodeInstrument (inst : Instrument) : List Nat :=
  let flags :=
    (if inst.is4op then 0x01 else 0) |||
    (if inst.isPseudo4op then 0x02 else 0) |||
    (if inst.isBlank then 0x04 else 0) |||
    ((inst.rhythmMode &&& 0x07) <<< 3)
  int32ToBytesLE inst.version ++
    int16ToBytesLE inst.noteOffset1 ++
    int16ToBytesLE inst.noteOffset2 ++
    [int8ToByte inst.velocityOffset, int8ToByte inst.secondVoiceDetune,
     inst.percussionKey % 256, flags,
     ((inst.feedback1 &&& 0x07) <<< 1) ||| (inst.connection1 &&& 0x01),
     ((inst.feedback2 &&& 0x07) <<< 1) ||| (inst.connection2 &&& 0x01)] ++
    encodeOperator (slotOperator inst 0) ++
    encodeOperator (slotOperator inst 1) ++
    encodeOperator (slotOperator inst 2) ++
    encodeOperator (slotOperator inst 3) ++
    uint16ToBytesLE inst.delayOnMs ++
    uint16ToBytesLE inst.delayOffMs ++ [0, 0]

/-- struct.js `defaultInstrument`: blank instrument defaults. -/
def defaultInstrument : Instrument :=
  { version := 0, noteOffset1 := 0, noteOffset2 := 0, velocityOffset := 0
    secondVoiceDetune := 0, percussionKey := 0
    is4op := false, isPseudo4op := false, isBlank := true, rhythmMode := 0
    feedback1 := 0, connection1 := 0, feedback2 := 0, connection2 := 0
    operators := [some defaultOperator, some defaultOperator,
                  some defaultOperator, some defaultOperator]
    delayOnMs := 0, delayOffMs := 0 }

/-- Documented ranges of the Instrument scalar fields, plus all four
operator slots present and in range. -/
def validInstrument (inst : Instrument) : Prop :=
  -2147483648 ≤ inst.version ∧ inst.version < 2147483648 ∧
  -32768 ≤ inst.noteOffset1 ∧ inst.noteOffset1 < 32768 ∧
  -32768 ≤ inst.noteOffset2 ∧ inst.noteOffset2 < 32768 ∧
  -128 ≤ inst.velocityOffset ∧ inst.velocityOffset < 128 ∧
  -128 ≤ inst.secondVoiceDetune ∧ inst.secondVoiceDetune < 128 ∧
  inst.percussionKey < 256 ∧ inst.rhythmMode < 8 ∧
  inst.feedback1 < 8 ∧ inst.connection1 < 2 ∧
  inst.feedback2 < 8 ∧ inst.connection2 < 2 ∧
  inst.delayOnMs < 65536 ∧ inst.delayOffMs < 65536 ∧
  ∃ o0 o1 o2 o3 : Operator,
    inst.operators = [some o0, some o1, some o2, some o3] ∧
    validOperator o0 ∧ validOperator o1 ∧ validOperator o2 ∧ validOperator o3

/-- Storing an int32 little-endian and reading it back is the identity on
in-range values. -/
theorem int32_roundtrip (v : Int) (h1 : -2147483648 ≤ v) (h2 : v < 2147483648) :
    bytesToInt32LE ((v % 4294967296).toNat % 256) ((v % 4294967296).toNat / 256 % 256)
      ((v % 4294967296).toNat / 65536 % 256) ((v % 4294967296).toNat / 16777216 % 256) = v := by
  unfold bytesToInt32LE
  split <;> omega

/-- Storing an int16 little-endian and reading it back is the identity on
in-range values. -/
theorem int16_roundtrip (v : Int) (h1 : -32768 ≤ v) (h2 : v < 32768) :
    bytesToInt16LE ((v % 65536).toNat % 256) ((v % 65536).toNat / 256 % 256) = v := by
  unfold bytesToInt16LE
  split <;> omega

/-- Storing an int8 and reading it back is the identity on in-range values. -/
theorem int8_roundtrip (v : Int) (h1 : -128 ≤ v) (h2 : v < 128) :
    byteToInt8 ((v % 256).toNat) = v := by
  unfold byteToInt8
  split <;> omega

/-- Storing a uint16 little-endian and reading it back is the identity on
in-range values. -/
theorem uint16_roundtrip (d : Nat) (h : d < 65536) :
    bytesToUint16LE (d % 256) (d / 256 % 256) = d := by
  unfold bytesToUint16LE
  omega

set_option maxHeartbeats 2000000 in
/-- Decoding the encoding of a valid instrument restores every field. -/
theorem decode_encode_inst (inst : Instrument) (h : validInstrument inst) :
    decodeInstrument (encodeInstrument inst) = inst := by
  obtain ⟨ver, n1, n2, vel, det, pk, f4, p4, bl, rm, fb1, c1, fb2, c2, ops, don, doff⟩ := inst
  obtain ⟨hv1, hv2, hn1a, hn1b, hn2a, hn2b, hvela, hvelb, hdeta, hdetb, hpk, hrm,
    hfb1, hc1, hfb2, hc2, hdon, hdoff, o0, o1, o2, o3, hops, ho0, ho1, ho2, ho3⟩ := h
  dsimp only at hv1 hv2 hn1a hn1b hn2a hn2b hvela hvelb hdeta hdetb hpk hrm hfb1 hc1 hfb2 hc2 hdon hdoff hops
  subst hops
  have e : decodeInstrument (encodeInstrument
      (Instrument.mk ver n1 n2 vel det pk f4 p4 bl rm fb1 c1 fb2 c2
        [some o0, some o1, some o2, some o3] don doff)) =
      Instrument.mk
        (bytesToInt32LE ((ver % 4294967296).toNat % 256) ((ver % 4294967296).toNat / 256 % 256)
          ((ver % 4294967296).toNat / 65536 % 256) ((ver % 4294967296).toNat / 16777216 % 256))
        (bytesToInt16LE ((n1 % 65536).toNat % 256) ((n1 % 65536).toNat / 256 % 256))
        (bytesToInt16LE ((n2 % 65536).toNat % 256) ((n2 % 65536).toNat / 256 % 256))
        (byteToInt8 ((vel % 256).toNat))
        (byteToInt8 ((det % 256).toNat))
        (pk % 256)
        (((if f4 then 0x01 else 0) ||| (if p4 then 0x02 else 0) ||| (if bl then 0x04 else 0) |||
            ((rm &&& 0x07) <<< 3)) &&& 0x01 != 0)
        (((if f4 then 0x01 else 0) ||| (if p4 then 0x02 else 0) ||| (if bl then 0x04 else 0) |||
            ((rm &&& 0x07) <<< 3)) &&& 0x02 != 0)
        (((if f4 then 0x01 else 0) ||| (if p4 then 0x02 else 0) ||| (if bl then 0x04 else 0) |||
            ((rm &&& 0x07) <<< 3)) &&& 0x04 != 0)
        ((((if f4 then 0x01 else 0) ||| (if p4 then 0x02 else 0) ||| (if bl then 0x04 else 0) |||
            ((rm &&& 0x07) <<< 3)) >>> 3) &&& 0x07)
        (((((fb1 &&& 0x07) <<< 1) ||| (c1 &&& 0x01)) >>> 1) &&& 0x07)
        ((((fb1 &&& 0x07) <<< 1) ||| (c1 &&& 0x01)) &&& 0x01)
        (((((fb2 &&& 0x07) <<< 1) ||| (c2 &&& 0x01)) >>> 1) &&& 0x07)
        ((((fb2 &&& 0x07) <<< 1) ||| (c2 &&& 0x01)) &&& 0x01)
        [some (decodeOperator (encodeOperator o0)),
         some (decodeOperator (encodeOperator o1)),
         some (decodeOperator (encodeOperator o2)),
         some (decodeOperator (encodeOperator o3))]
        (bytesToUint16LE (don % 256) (don / 256 % 256))
        (bytesToUint16LE (doff % 256) (doff / 256 % 256)) := rfl
  rw [e]
  clear e
  simp only [Instrument.mk.injEq]
  refine ⟨int32_roundtrip ver hv1 hv2, int16_roundtrip n1 hn1a hn1b,
    int16_roundtrip n2 hn2a hn2b, int8_roundtrip vel hvela hvelb,
    int8_roundtrip det hdeta hdetb, Nat.mod_eq_of_lt hpk,
    ?_, ?_, ?_, ?_, ?_, ?_, ?_, ?_, ?_,
    uint16_roundtrip don hdon, uint16_roundtrip doff hdoff⟩
  · revert rm; revert bl; revert p4; revert f4; decide
  · revert rm; revert bl; revert p4; revert f4; decide
  · revert rm; revert bl; revert p4; revert f4; decide
  · revert rm; revert bl; revert p4; revert f4; decide
  · revert c1; revert fb1; decide
  · revert c1; revert fb1; decide
  · revert c2; revert fb2; decide
  · revert c2; revert fb2; decide
  · rw [decode_encode_op o0 ho0, decode_encode_op o1 ho1,
      decode_encode_op o2 ho2, decode_encode_op o3 ho3]

/-- The encoded instrument always occupies exactly 40 bytes. -/
theorem encodeInstrument_length (inst : Instrument) :
    (encodeInstrument inst).length = 40 := rfl

/-- C2: for every in-range Instrument with all four operator slots present,
`decodeInstrument` inverts `encodeInstrument`; the encoding is 40 bytes with
the four 5-byte operators at offsets 14/19/24/29 and the two little-endian
16-bit delays at offsets 34 and 36 (the scalar header occupying 0-13). -/
theorem claim_C2 (inst : Instrument) (h : validInstrument inst) :
    decodeInstrument (encodeInstrument inst) = inst ∧
    (encodeInstrument inst).length = 40 ∧
    (∀ i, i < 4 →
      ((encodeInstrument inst).drop (14 + 5 * i)).take 5 = encodeOperator (slotOperator inst i)) ∧
    ((encodeInstrument inst).drop 34).take 2 = uint16ToBytesLE inst.delayOnMs ∧
    ((encodeInstrument inst).drop 36).take 2 = uint16ToBytesLE inst.delayOffMs := by
  refine ⟨decode_encode_inst inst h, encodeInstrument_length inst, ?_, rfl, rfl⟩
  intro i hi
  interval_cases i <;> rfl

/-- Witness for C2 at the default (blank) instrument. -/
theorem claim_C2_w :
    decodeInstrument (encodeInstrument defaultInstrument) = defaultInstrument ∧
    (encodeInstrument defaultInstrument).length = 40 ∧
    (∀ i, i < 4 →
      ((encodeInstrument defaultInstrument).drop (14 + 5 * i)).take 5 =
        encodeOperator (slotOperator defaultInstrument i)) ∧
    ((encodeInstrument defaultInstrument).drop 34).take 2 =
      uint16ToBytesLE defaultInstrument.delayOnMs ∧
    ((encodeInstrument defaultInstrument).drop 36).take 2 =
      uint16ToBytesLE defaultInstrument.delayOffMs :=
  claim_C2 defaultInstrument
    (by
      refine ⟨?_, ?_, ?_, ?_, ?_, ?_, ?_, ?_, ?_, ?_, ?_, ?_, ?_, ?_, ?_, ?_, ?_, ?_,
        defaultOperator, defaultOperator, defaultOperator, defaultOperator,
        rfl, ?_, ?_, ?_, ?_⟩ <;> decide)

/-- Writing `defaultOperator` into an empty slot does not change what any
slot encodes: slot `i` encoded `defaultOperator` already, other slots are
untouched by `List.set`. -/
theorem slot_set_default (ops : List (Option Operator)) (i j : Nat)
    (h : ops.getD i none = none) :
    ((ops.set i (some defaultOperator)).getD j none).getD defaultOperator =
      (ops.getD j none).getD defaultOperator := by
  induction ops generalizing i j with
  | nil => rfl
  | cons hd tl ih =>
    cases i with
    | zero =>
      cases j with
      | zero =>
        have hh : hd = none := h
        rw [show ((hd :: tl).set 0 (some defaultOperator)).getD 0 none =
          some defaultOperator from rfl, hh]
        rfl
      | succ j => rfl
    | succ i =>
      cases j with
      | zero => rfl
      | succ j => exact ih i j h

/-- C9: encoding an Instrument whose operators array is missing slot `i`
produces the same 40 bytes as encoding it with `defaultOperator` placed in
slot `i` (other slots and scalar header byte-identical), and
`defaultOperator` is silent: totalLevel 63, sustain 0, release 15. -/
theorem claim_C9 (inst : Instrument) (i : Nat) (hi : i < 4)
    (h : inst.operators.getD i none = none) :
    encodeInstrument inst =
      encodeInstrument { inst with operators := inst.operators.set i (some defaultOperator) } ∧
    defaultOperator.totalLevel = 63 ∧ defaultOperator.sustain = 0 ∧
    defaultOperator.release = 15 := by
  refine ⟨?_, rfl, rfl, rfl⟩
  dsimp only [encodeInstrument, slotOperator]
  rw [slot_set_default inst.operators i 0 h, slot_set_default inst.operators i 1 h,
    slot_set_default inst.operators i 2 h, slot_set_default inst.operators i 3 h]

/-- Witness for C9: an instrument with an empty slot 0. -/
theorem claim_C9_w :
    encodeInstrument
        { defaultInstrument with
          operators := [none, some defaultOperator, some defaultOperator, some defaultOperator] } =
      encodeInstrument
        { { defaultInstrument with
            operators := [none, some defaultOperator, some defaultOperator, some defaultOperator] } with
          operators :=
            ([none, some defaultOperator, some defaultOperator, some defaultOperator] :
              List (Option Operator)).set 0 (some defaultOperator) } ∧
    defaultOperator.totalLevel = 63 ∧ defaultOperator.sustain = 0 ∧
    defaultOperator.release = 15 :=
  claim_C9
    { defaultInstrument with
      operators := [none, some defaultOperator, some defaultOperator, some defaultOperator] }
    0 (by decide) rfl

/-! ### AudioWorklet processor (`AdlMidiProcessor` in struct.js)

The WASM engine is external: an `EngOracle` record supplies the values its
entry points return during one handler/render invocation, and every engine
call issued by the processor is logged as an `EngCall` (entry-point name
plus arguments). Messages posted back on the port are logged as `Reply`
values. -/

/-- One call into the engine function table: entry-point name and arguments
(the player handle argument is implicit). -/
structure EngCall where
  name : String
  args : List Int
deriving DecidableEq

/-- Results and readings the external engine supplies during one invocation. -/
structure EngOracle where
  atEnd : Bool
  setBankResult : Int
  getBankResult : Int
  getInstrumentResult : Int
  instrumentBytes : List Nat
  setInstrumentResult : Int
  switchEmulatorResult : Int
  openDataResult : Int
  openBankDataResult : Int
  positionSec : Int
  durationSec : Int
  fourOpChannels : Int
  autoArpeggioOn : Bool
  chanAllocMode : Int
  emulatorNameStr : String
  libraryVersionStr : String
  versionTriple : Int × Int × Int
  numChipsVal : Int
  numChipsObtainedVal : Int
  volumeModelVal : Int
  bankList : List (Int × String)
  musicTitleStr : String
  musicCopyrightStr : String

/-- Playback mode of the processor (`this.playMode`). -/
inductive Mode where
  | realtime
  | file
deriving DecidableEq

/-- Synth settings snapshot (`this.settings`). -/
structure Settings where
  numChips : Int
  numFourOpChannels : Int
  bank : Int
  softPan : Bool
  deepVibrato : Bool
  deepTremolo : Bool
deriving DecidableEq

/-- Partial settings object carried by a `configure` message: absent fields
are `none` (JS `undefined`). -/
structure SettingsPatch where
  numChips : Option Int
  numFourOpChannels : Option Int
  bank : Option Int
  softPan : Option Bool
  deepVibrato : Option Bool
  deepTremolo : Option Bool
deriving DecidableEq

/-- `Object.assign(this.settings, patch)`: present fields overwrite. -/
def mergeSettings (s : Settings) (p : SettingsPatch) : Settings :=
  { numChips := p.numChips.getD s.numChips
    numFourOpChannels := p.numFourOpChannels.getD s.numFourOpChannels
    bank := p.bank.getD s.bank
    softPan := p.softPan.getD s.softPan
    deepVibrato := p.deepVibrato.getD s.deepVibrato
    deepTremolo := p.deepTremolo.getD s.deepTremolo }

/-- `applySettings(settings)`: forward exactly the fields present in the
patch to the corresponding engine setters, in source order. -/
def applySettingsCalls (p : SettingsPatch) : List EngCall :=
  (match p.numChips with
    | some n => [EngCall.mk "adl_setNumChips" [n]]
    | none => []) ++
  (match p.numFourOpChannels with
    | some n => [EngCall.mk "adl_setNumFourOpsChn" [n]]
    | none => []) ++
  (match p.bank with
    | some n => [EngCall.mk "adl_setBank" [n]]
    | none => []) ++
  (match p.softPan with
    | some b => [EngCall.mk "adl_setSoftPanEnabled" [if b then 1 else 0]]
    | none => []) ++
  (match p.deepVibrato with
    | some b => [EngCall.mk "adl_setHVibrato" [if b then 1 else 0]]
    | none => []) ++
  (match p.deepTremolo with
    | some b => [EngCall.mk "adl_setHTremolo" [if b then 1 else 0]]
    | none => [])

/-- Bank identifier (`{percussive, msb, lsb}`). -/
structure BankId where
  percussive : Bool
  msb : Nat
  lsb : Nat
deriving DecidableEq

/-- Result of the processor's `getInstrument`. -/
inductive GetInstResult where
  | ok (instrument : Instrument)
  | fail (error : String)
deriving DecidableEq

/-- Result of the processor's `setInstrument`. -/
inductive SetInstResult where
  | ok
  | fail (error : String)
deriving DecidableEq

/-- The `adl_getBank(bankId, 1, bank)` call with its marshalled bank id. -/
def getBankCall (bankId : BankId) : EngCall :=
  EngCall.mk "adl_getBank"
    [if bankId.percussive then 1 else 0, (bankId.msb : Int), (bankId.lsb : Int), 1]

/-- `AdlMidiProcessor.getInstrument`: resolve (create-if-missing) the bank,
read the raw instrument bytes, decode on read status 0; any failure yields
`success:false` with an error string, never a decoded instrument. -/
def procGetInstrument (o : EngOracle) (bankId : BankId) (programNumber : Int) :
    GetInstResult × List EngCall :=
  if o.getBankResult ≠ 0 then
    (GetInstResult.fail "Failed to get bank", [getBankCall bankId])
  else
    let instC := EngCall.mk "adl_getInstrument" [programNumber]
    if o.getInstrumentResult = 0 then
      (GetInstResult.ok (decodeInstrument o.instrumentBytes), [getBankCall bankId, instC])
    else
      (GetInstResult.fail "Failed to get instrument", [getBankCall bankId, instC])

/-- `AdlMidiProcessor.setInstrument`: resolve/create the bank, write the
encoded instrument, and issue a full `adl_reset` exactly when the write
returned status 0. -/
def procSetInstrument (o : EngOracle) (bankId : BankId) (programNumber : Int)
    (instrument : Instrument) : SetInstResult × List EngCall :=
  if o.getBankResult ≠ 0 then
    (SetInstResult.fail "Failed to get/create bank", [getBankCall bankId])
  else
    let setC := EngCall.mk "adl_setInstrument"
      (programNumber :: (encodeInstrument instrument).map (fun b => (b : Int)))
    if o.setInstrumentResult = 0 then
      (SetInstResult.ok, [getBankCall bankId, setC, EngCall.mk "adl_reset" []])
    else
      (SetInstResult.fail "Failed to set instrument", [getBankCall bankId, setC])

/-- Messages accepted by `AdlMidiProcessor.handleMessage`, one constructor
per `case` of the source switch, carrying the fields the case reads. -/
inductive Msg where
  | ping
  | noteOn (channel note velocity : Int)
  | noteOff (channel note : Int)
  | pitchBend (channel msb lsb : Int)
  | controlChange (channel controller value : Int)
  | programChange (channel program : Int)
  | noteAfterTouch (channel note pressure : Int)
  | channelAfterTouch (channel pressure : Int)
  | bankChange (channel bank : Int)
  | bankChangeMSB (channel msb : Int)
  | bankChangeLSB (channel lsb : Int)
  | resetState
  | panicMsg
  | configure (settings : SettingsPatch)
  | loadBank (data : List Nat)
  | setBank (bank : Int)
  | getInstrument (bankId : BankId) (programNumber : Int)
  | setInstrument (bankId : BankId) (programNumber : Int) (instrument : Instrument)
  | setNumChips (chips : Int)
  | setNumFourOpChannels (channels : Int)
  | getNumFourOpChannels
  | setScaleModulators (enabled : Bool)
  | setFullRangeBrightness (enabled : Bool)
  | setAutoArpeggio (enabled : Bool)
  | getAutoArpeggio
  | setChannelAllocMode (mode : Int)
  | getChannelAllocMode
  | setVolumeModel (model : Int)
  | setPercMode (enabled : Bool)
  | setVibrato (enabled : Bool)
  | setTremolo (enabled : Bool)
  | setRunAtPcmRate (enabled : Bool)
  | switchEmulator (emulator : Int)
  | getEmulatorName
  | getLibraryVersion
  | getVersion
  | getNumChips
  | getNumChipsObtained
  | getVolumeModel
  | getEmbeddedBanks
  | loadMidi (data : List Nat)
  | getMusicTitle
  | getMusicCopyright
  | playMsg
  | stopMsg
  | seek (position : Int)
  | setLoop (enabled : Bool)
  | setTempo (tempo : Int)
  | getState
  | resetMsg
deriving DecidableEq

/-- Messages the processor posts back on its port. -/
inductive Reply where
  | pong (ready : Bool)
  | configured
  | bankSet (success : Bool) (bank : Int)
  | instrumentLoaded (result : GetInstResult)
  | instrumentSet (result : SetInstResult)
  | numFourOpChannels (channels : Int)
  | autoArpeggio (enabled : Bool)
  | channelAllocMode (mode : Int)
  | emulatorSwitched (success : Bool) (emulator : Int)
  | emulatorName (name : String)
  | libraryVersion (ver : String)
  | versionInfo (ver : Int × Int × Int)
  | numChips (chips : Int)
  | numChipsObtained (chips : Int)
  | volumeModel (model : Int)
  | embeddedBanks (banks : List (Int × String))
  | midiLoaded (success : Bool) (duration : Option Int) (error : Option String)
  | musicTitle (title : String)
  | musicCopyright (copyright : String)
  | bankLoaded (success : Bool) (error : Option String)
  | stateReply (position duration : Int) (ended : Bool) (playMode : Mode)
  | playbackEnded
deriving DecidableEq

/-- Processor state relevant to the claims: the `ready` flag (true once
`initWasm` succeeded, which is also when the engine handle and heap views
exist), the playback mode, and the settings snapshot. -/
structure ProcState where
  ready : Bool
  playMode : Mode
  settings : Settings
deriving DecidableEq

/-- Processor state as the constructor leaves it: not ready, `realtime`
mode, default settings. -/
def initProcState : ProcState :=
  { ready := false
    playMode := Mode.realtime
    settings :=
      { numChips := 4, numFourOpChannels := -1, bank := 72
        softPan := true, deepVibrato := false, deepTremolo := false } }

/-- `AdlMidiProcessor.handleMessage`: the guard drops every message except
`ping` until ready; each case mirrors the source switch, returning the new
state, the engine calls issued, and the replies posted. -/
def handleMessage (o : EngOracle) (st : ProcState) (m : Msg) :
    ProcState × List EngCall × List Reply :=
  if st.ready = false ∧ m ≠ Msg.ping then (st, [], [])
  else
    match m with
    | Msg.ping => (st, [], [Reply.pong st.ready])
    | Msg.noteOn c n v => (st, [EngCall.mk "adl_rt_noteOn" [c, n, v]], [])
    | Msg.noteOff c n => (st, [EngCall.mk "adl_rt_noteOff" [c, n]], [])
    | Msg.pitchBend c msb lsb => (st, [EngCall.mk "adl_rt_pitchBendML" [c, msb, lsb]], [])
    | Msg.controlChange c k v => (st, [EngCall.mk "adl_rt_controllerChange" [c, k, v]], [])
    | Msg.programChange c p => (st, [EngCall.mk "adl_rt_patchChange" [c, p]], [])
    | Msg.noteAfterTouch c n p => (st, [EngCall.mk "adl_rt_noteAfterTouch" [c, n, p]], [])
    | Msg.channelAfterTouch c p => (st, [EngCall.mk "adl_rt_channelAfterTouch" [c, p]], [])
    | Msg.bankChange c b => (st, [EngCall.mk "adl_rt_bankChange" [c, b]], [])
    | Msg.bankChangeMSB c b => (st, [EngCall.mk "adl_rt_bankChangeMSB" [c, b]], [])
    | Msg.bankChangeLSB c b => (st, [EngCall.mk "adl_rt_bankChangeLSB" [c, b]], [])
    | Msg.resetState => (st, [EngCall.mk "adl_rt_resetState" []], [])
    | Msg.panicMsg => (st, [EngCall.mk "adl_panic" []], [])
    | Msg.configure p =>
        ({ st with settings := mergeSettings st.settings p },
         applySettingsCalls p, [Reply.configured])
    | Msg.loadBank data =>
        (st, [EngCall.mk "adl_openBankData" [(data.length : Int)]],
         if o.openBankDataResult = 0 then [Reply.bankLoaded true none]
         else [Reply.bankLoaded false (some "Failed to load bank data")])
    | Msg.setBank b =>
        (st, [EngCall.mk "adl_setBank" [b]],
         [Reply.bankSet (o.setBankResult = 0) b])
    | Msg.getInstrument bankId programNumber =>
        let r := procGetInstrument o bankId programNumber
        (st, r.2, [Reply.instrumentLoaded r.1])
    | Msg.setInstrument bankId programNumber instrument =>
        let r := procSetInstrument o bankId programNumber instrument
        (st, r.2, [Reply.instrumentSet r.1])
    | Msg.setNumChips n => (st, [EngCall.mk "adl_setNumChips" [n]], [])
    | Msg.setNumFourOpChannels n => (st, [EngCall.mk "adl_setNumFourOpsChn" [n]], [])
    | Msg.getNumFourOpChannels =>
        (st, [EngCall.mk "adl_getNumFourOpsChn" []],
         [Reply.numFourOpChannels o.fourOpChannels])
    | Msg.setScaleModulators b =>
        (st, [EngCall.mk "adl_setScaleModulators" [if b then 1 else 0]], [])
    | Msg.setFullRangeBrightness b =>
        (st, [EngCall.mk "adl_setFullRangeBrightness" [if b then 1 else 0]], [])
    | Msg.setAutoArpeggio b =>
        (st, [EngCall.mk "adl_setAutoArpeggio" [if b then 1 else 0]], [])
    | Msg.getAutoArpeggio =>
        (st, [EngCall.mk "adl_getAutoArpeggio" []],
         [Reply.autoArpeggio o.autoArpeggioOn])
    | Msg.setChannelAllocMode mode => (st, [EngCall.mk "adl_setChannelAllocMode" [mode]], [])
    | Msg.getChannelAllocMode =>
        (st, [EngCall.mk "adl_getChannelAllocMode" []],
         [Reply.channelAllocMode o.chanAllocMode])
    | Msg.setVolumeModel mode => (st, [EngCall.mk "adl_setVolumeRangeModel" [mode]], [])
    | Msg.setPercMode b => (st, [EngCall.mk "adl_setPercMode" [if b then 1 else 0]], [])
    | Msg.setVibrato b => (st, [EngCall.mk "adl_setHVibrato" [if b then 1 else 0]], [])
    | Msg.setTremolo b => (st, [EngCall.mk "adl_setHTremolo" [if b then 1 else 0]], [])
    | Msg.setRunAtPcmRate b => (st, [EngCall.mk "adl_setRunAtPcmRate" [if b then 1 else 0]], [])
    | Msg.switchEmulator e =>
        (st, [EngCall.mk "adl_switchEmulator" [e]],
         [Reply.emulatorSwitched (o.switchEmulatorResult = 0) e])
    | Msg.getEmulatorName =>
        (st, [EngCall.mk "adl_chipEmulatorName" []],
         [Reply.emulatorName o.emulatorNameStr])
    | Msg.getLibraryVersion =>
        (st, [EngCall.mk "adl_linkedLibraryVersion" []],
         [Reply.libraryVersion o.libraryVersionStr])
    | Msg.getVersion =>
        (st, [EngCall.mk "adl_linkedVersion" []],
         [Reply.versionInfo o.versionTriple])
    | Msg.getNumChips =>
        (st, [EngCall.mk "adl_getNumChips" []], [Reply.numChips o.numChipsVal])
    | Msg.getNumChipsObtained =>
        (st, [EngCall.mk "adl_getNumChipsObtained" []],
         [Reply.numChipsObtained o.numChipsObtainedVal])
    | Msg.getVolumeModel =>
        (st, [EngCall.mk "adl_getVolumeRangeModel" []],
         [Reply.volumeModel o.volumeModelVal])
    | Msg.getEmbeddedBanks =>
        (st, [EngCall.mk "adl_getBanksCount" [], EngCall.mk "adl_getBankNames" []],
         [Reply.embeddedBanks o.bankList])
    | Msg.loadMidi data =>
        (st, [EngCall.mk "adl_openData" [(data.length : Int)]],
         if o.openDataResult = 0 then [Reply.midiLoaded true (some o.durationSec) none]
         else [Reply.midiLoaded false none (some "Failed to parse MIDI data")])
    | Msg.getMusicTitle =>
        (st, [EngCall.mk "adl_metaMusicTitle" []], [Reply.musicTitle o.musicTitleStr])
    | Msg.getMusicCopyright =>
        (st, [EngCall.mk "adl_metaMusicCopyright" []],
         [Reply.musicCopyright o.musicCopyrightStr])
    | Msg.playMsg =>
        ({ st with playMode := Mode.file },
         if o.atEnd then [EngCall.mk "adl_atEnd" [], EngCall.mk "adl_positionRewind" []]
         else [EngCall.mk "adl_atEnd" []],
         [])
    | Msg.stopMsg =>
        ({ st with playMode := Mode.realtime },
         [EngCall.mk "adl_positionRewind" [], EngCall.mk "adl_panic" []], [])
    | Msg.seek p => (st, [EngCall.mk "adl_positionSeek" [p]], [])
    | Msg.setLoop b => (st, [EngCall.mk "adl_setLoopEnabled" [if b then 1 else 0]], [])
    | Msg.setTempo t => (st, [EngCall.mk "adl_setTempo" [t]], [])
    | Msg.getState =>
        (st, [EngCall.mk "adl_positionTell" [], EngCall.mk "adl_totalTimeLength" [],
              EngCall.mk "adl_atEnd" []],
         [Reply.stateReply o.positionSec o.durationSec o.atEnd st.playMode])
    | Msg.resetMsg =>
        ({ st with playMode := Mode.realtime }, [EngCall.mk "adl_reset" []], [])

/-- `AdlMidiProcessor.process`: one render callback. When not ready it fills
nothing and issues no engine call; in `file` mode it calls `adl_play`, then
checks `adl_atEnd` and on end-of-stream panics, switches to `realtime` and
posts exactly one `playbackEnded`; in `realtime` mode it calls
`adl_generate`. -/
def processStep (o : EngOracle) (st : ProcState) (frames : Nat) :
    ProcState × List EngCall × List Reply :=
  if st.ready = false then (st, [], [])
  else
    let sampleCount : Int := (frames : Int) * 2
    if st.playMode = Mode.file then
      if o.atEnd then
        ({ st with playMode := Mode.realtime },
         [EngCall.mk "adl_play" [sampleCount], EngCall.mk "adl_atEnd" [],
          EngCall.mk "adl_panic" []],
         [Reply.playbackEnded])
      else
        (st, [EngCall.mk "adl_play" [sampleCount], EngCall.mk "adl_atEnd" []], [])
    else
      (st, [EngCall.mk "adl_generate" [sampleCount]], [])

/-- C3: the playback-mode state machine. Initial mode is `realtime`; `play`
moves any ready state to `file`, rewinding first iff the engine reports
at-end; `stop` moves to `realtime` and unconditionally rewinds and panics;
`reset` forces `realtime`; a render in `file` mode whose `adl_atEnd` check
fires panics, moves to `realtime` and posts exactly one `playbackEnded`;
no other message changes the mode. -/
theorem claim_C3 :
    initProcState.playMode = Mode.realtime ∧
    (∀ o st, st.ready = true →
      handleMessage o st Msg.playMsg =
        ({ st with playMode := Mode.file },
         if o.atEnd then [EngCall.mk "adl_atEnd" [], EngCall.mk "adl_positionRewind" []]
         else [EngCall.mk "adl_atEnd" []], []) ∧
      (EngCall.mk "adl_positionRewind" [] ∈ (handleMessage o st Msg.playMsg).2.1 ↔
        o.atEnd = true)) ∧
    (∀ o st, st.ready = true →
      handleMessage o st Msg.stopMsg =
        ({ st with playMode := Mode.realtime },
         [EngCall.mk "adl_positionRewind" [], EngCall.mk "adl_panic" []], [])) ∧
    (∀ o st, st.ready = true →
      handleMessage o st Msg.resetMsg =
        ({ st with playMode := Mode.realtime }, [EngCall.mk "adl_reset" []], [])) ∧
    (∀ o st frames, st.ready = true → st.playMode = Mode.file → o.atEnd = true →
      processStep o st frames =
        ({ st with playMode := Mode.realtime },
         [EngCall.mk "adl_play" [(frames : Int) * 2], EngCall.mk "adl_atEnd" [],
          EngCall.mk "adl_panic" []],
         [Reply.playbackEnded]) ∧
      (processStep o st frames).2.2.count Reply.playbackEnded = 1) ∧
    (∀ o st frames, st.ready = true → st.playMode = Mode.file → o.atEnd = false →
      processStep o st frames =
        (st, [EngCall.mk "adl_play" [(frames : Int) * 2], EngCall.mk "adl_atEnd" []], [])) ∧
    (∀ o st frames, st.playMode = Mode.realtime →
      (processStep o st frames).1 = st ∧
      Reply.playbackEnded ∉ (processStep o st frames).2.2) ∧
    (∀ o st m, m ≠ Msg.playMsg → m ≠ Msg.stopMsg → m ≠ Msg.resetMsg →
      (handleMessage o st m).1.playMode = st.playMode) := by
  refine ⟨rfl, ?_, ?_, ?_, ?_, ?_, ?_, ?_⟩
  · intro o st h
    constructor
    · simp [handleMessage, h]
    · cases hA : o.atEnd <;> simp [handleMessage, h, hA, EngCall.mk.injEq]
  · intro o st h
    simp [handleMessage, h]
  · intro o st h
    simp [handleMessage, h]
  · intro o st frames h hm hA
    constructor
    · simp [processStep, h, hm, hA]
    · simp [processStep, h, hm, hA]
  · intro o st frames h hm hA
    simp [processStep, h, hm, hA]
  · intro o st frames hm
    unfold processStep
    rcases hr : st.ready with _ | _
    · simp [hr]
    · simp [hr, hm]
  · intro o st m h1 h2 h3
    unfold handleMessage
    split
    · rfl
    · cases m <;>
        first
          | rfl
          | exact absurd rfl h1
          | exact absurd rfl h2
          | exact absurd rfl h3

/-- C10: before the ready flag is set, every message except `ping` is
ignored by the processor (no state change, no engine call, no reply), and
`ping` always receives a `pong` carrying the current ready flag. -/
theorem claim_C10 :
    (∀ o st m, st.ready = false → m ≠ Msg.ping → handleMessage o st m = (st, [], [])) ∧
    (∀ o st, handleMessage o st Msg.ping = (st, [], [Reply.pong st.ready])) := by
  constructor
  · intro o st m h1 h2
    unfold handleMessage
    rw [if_pos ⟨h1, h2⟩]
  · intro o st
    unfold handleMessage
    rw [if_neg (fun hc => hc.2 rfl)]

/-- `AdlMidiCore.getInstrument`: `null` unless both the bank resolution and
the instrument read return status 0, in which case the 40 heap bytes are
decoded. -/
def coreGetInstrument (o : EngOracle) (bankId : BankId) (program : Int) :
    Option Instrument :=
  if o.getBankResult = 0 then
    if o.getInstrumentResult = 0 then some (decodeInstrument o.instrumentBytes)
    else none
  else none

/-- `AdlMidiCore.setInstrument`: writes the encoded instrument on bank
status 0 and reports the write status; unlike the processor, it never
issues a reset (callers use `resetFull` themselves). -/
def coreSetInstrument (o : EngOracle) (bankId : BankId) (program : Int)
    (instrument : Instrument) : Bool :=
  if o.getBankResult = 0 then o.setInstrumentResult = 0
  else false

/-- C7: the session's `setInstrument` issues the full `adl_reset` after,
and only after, the `adl_setInstrument` write returns status 0; bank
resolution failure or a nonzero write short-circuits with a failure result
and no reset. -/
theorem claim_C7 (o : EngOracle) (bankId : BankId) (programNumber : Int)
    (instrument : Instrument) :
    ((procSetInstrument o bankId programNumber instrument).1 = SetInstResult.ok ↔
      o.getBankResult = 0 ∧ o.setInstrumentResult = 0) ∧
    (EngCall.mk "adl_reset" [] ∈ (procSetInstrument o bankId programNumber instrument).2 ↔
      o.getBankResult = 0 ∧ o.setInstrumentResult = 0) ∧
    (o.getBankResult = 0 → o.setInstrumentResult = 0 →
      (procSetInstrument o bankId programNumber instrument).2 =
        [getBankCall bankId,
         EngCall.mk "adl_setInstrument"
           (programNumber :: (encodeInstrument instrument).map (fun b => (b : Int))),
         EngCall.mk "adl_reset" []]) ∧
    (o.getBankResult ≠ 0 ∨ o.setInstrumentResult ≠ 0 →
      (∃ e, (procSetInstrument o bankId programNumber instrument).1 = SetInstResult.fail e) ∧
      EngCall.mk "adl_reset" [] ∉ (procSetInstrument o bankId programNumber instrument).2) ∧
    (coreSetInstrument o bankId programNumber instrument = true ↔
      o.getBankResult = 0 ∧ o.setInstrumentResult = 0) := by
  by_cases hb : o.getBankResult = 0 <;> by_cases hs : o.setInstrumentResult = 0 <;>
    simp [procSetInstrument, coreSetInstrument, hb, hs, getBankCall, EngCall.mk.injEq]

/-- C8: `getInstrument` never yields a partially decoded instrument: the
processor returns `success:false` and the core returns `null` when bank
resolution or the instrument read fails, and a decoded instrument is
produced exactly when both return status 0. -/
theorem claim_C8 :
    (∀ (o : EngOracle) (bankId : BankId) (pn : Int) (inst : Instrument),
      (procGetInstrument o bankId pn).1 = GetInstResult.ok inst ↔
        o.getBankResult = 0 ∧ o.getInstrumentResult = 0 ∧
          inst = decodeInstrument o.instrumentBytes) ∧
    (∀ (o : EngOracle) (bankId : BankId) (pn : Int),
      o.getBankResult ≠ 0 ∨ o.getInstrumentResult ≠ 0 →
        ∃ e, (procGetInstrument o bankId pn).1 = GetInstResult.fail e) ∧
    (∀ (o : EngOracle) (bankId : BankId) (pn : Int) (inst : Instrument),
      coreGetInstrument o bankId pn = some inst ↔
        o.getBankResult = 0 ∧ o.getInstrumentResult = 0 ∧
          inst = decodeInstrument o.instrumentBytes) ∧
    (∀ (o : EngOracle) (bankId : BankId) (pn : Int),
      o.getBankResult ≠ 0 ∨ o.getInstrumentResult ≠ 0 →
        coreGetInstrument o bankId pn = none) := by
  refine ⟨?_, ?_, ?_, ?_⟩
  · intro o bankId pn inst
    by_cases hb : o.getBankResult = 0 <;> by_cases hg : o.getInstrumentResult = 0 <;>
      simp [procGetInstrument, hb, hg, eq_comm]
  · intro o bankId pn h
    by_cases hb : o.getBankResult = 0 <;> by_cases hg : o.getInstrumentResult = 0 <;>
      simp [procGetInstrument, hb, hg] <;> tauto
  · intro o bankId pn inst
    by_cases hb : o.getBankResult = 0 <;> by_cases hg : o.getInstrumentResult = 0 <;>
      simp [coreGetInstrument, hb, hg, eq_comm]
  · intro o bankId pn h
    by_cases hb : o.getBankResult = 0 <;> by_cases hg : o.getInstrumentResult = 0 <;>
      simp [coreGetInstrument, hb, hg] <;> tauto

/-! ### AdlMidiCore render-buffer lifecycle (`generate` / `play`)

Float32 sample values are modelled as exact rationals: dividing an int16
sample by 32768 is exact in binary floating point, so `ℚ` captures the
produced values bit-for-bit. The Emscripten heap is external: the oracle
supplies the address `_malloc` returns and the int16 samples the engine
writes at the buffer for this call. -/

/-- External inputs of one `generate`/`play` call. -/
structure RenderOracle where
  mallocAddr : Nat
  sampleAt : Nat → Int

/-- The scratch-buffer state of an `AdlMidiCore` session: the owned
`Float32Array` (`_audioBuffer`, `none` when null) and the heap pointer
(`_audioBufferPtr`, `none` when null). -/
structure CoreState where
  audioBuffer : Option (List ℚ)
  audioBufferPtr : Option Nat

/-- Heap-management and engine effects of one render call. -/
inductive CoreEff where
  | freeBuf (ptr : Nat)
  | mallocBuf (bytes : Nat)
  | generateCall (samples : Nat)
  | playCall (samples : Nat)
deriving DecidableEq

/-- JS truthiness of the stored pointer (`null` and address `0` are falsy). -/
def ptrTruthy : Option Nat → Bool
  | none => false
  | some p => p != 0

/-- The reallocation guard
`!this._audioBufferPtr || !this._audioBuffer || this._audioBuffer.length < samples`. -/
def needRealloc (st : CoreState) (samples : Nat) : Bool :=
  !ptrTruthy st.audioBufferPtr || !st.audioBuffer.isSome ||
    decide ((st.audioBuffer.getD []).length < samples)

/-- Effect of the conversion loop `for i < n: buf[i] = f i` on a
`Float32Array` (indices beyond the array are ignored, as in JS). -/
def overwritePrefix (f : Nat → ℚ) : List ℚ → Nat → List ℚ
  | buf, 0 => buf
  | [], _ + 1 => []
  | _ :: rest, n + 1 => f 0 :: overwritePrefix (fun i => f (i + 1)) rest n

/-- `AdlMidiCore.generate(frames)`: reallocate the scratch buffer only when
absent or too small (freeing the old pointer if it was truthy), call
`adl_generate`, convert the int16 samples to floats by dividing by 32768,
and return the first `frames * 2` converted samples. -/
def coreGenerate (o : RenderOracle) (st : CoreState) (frames : Nat) :
    CoreState × List CoreEff × List ℚ :=
  let samples := frames * 2
  let bytes := samples * 2
  let allocEffs :=
    if needRealloc st samples then
      (if ptrTruthy st.audioBufferPtr then [CoreEff.freeBuf (st.audioBufferPtr.getD 0)]
       else []) ++ [CoreEff.mallocBuf bytes]
    else []
  let ptr := if needRealloc st samples then some o.mallocAddr else st.audioBufferPtr
  let buf0 :=
    if needRealloc st samples then List.replicate samples (0 : ℚ)
    else st.audioBuffer.getD []
  let buf := overwritePrefix (fun i => (o.sampleAt i : ℚ) / 32768) buf0 samples
  ({ audioBuffer := some buf, audioBufferPtr := ptr },
   allocEffs ++ [CoreEff.generateCall samples], buf.take samples)

/-- `AdlMidiCore.play(frames)`: identical buffer lifecycle to `generate`,
but advances the sequenced file through `adl_play`. -/
def corePlay (o : RenderOracle) (st : CoreState) (frames : Nat) :
    CoreState × List CoreEff × List ℚ :=
  let samples := frames * 2
  let bytes := samples * 2
  let allocEffs :=
    if needRealloc st samples then
      (if ptrTruthy st.audioBufferPtr then [CoreEff.freeBuf (st.audioBufferPtr.getD 0)]
       else []) ++ [CoreEff.mallocBuf bytes]
    else []
  let ptr := if needRealloc st samples then some o.mallocAddr else st.audioBufferPtr
  let buf0 :=
    if needRealloc st samples then List.replicate samples (0 : ℚ)
    else st.audioBuffer.getD []
  let buf := overwritePrefix (fun i => (o.sampleAt i : ℚ) / 32768) buf0 samples
  ({ audioBuffer := some buf, audioBufferPtr := ptr },
   allocEffs ++ [CoreEff.playCall samples], buf.take samples)

/-- `overwritePrefix` preserves the buffer length. -/
theorem overwritePrefix_length (f : Nat → ℚ) (buf : List ℚ) (n : Nat) :
    (overwritePrefix f buf n).length = buf.length := by
  induction buf generalizing f n with
  | nil => cases n <;> rfl
  | cons x rest ih =>
    cases n with
    | zero => rfl
    | succ n => simpa [overwritePrefix] using ih (fun i => f (i + 1)) n

/-- Written entries of `overwritePrefix` read back as `f i`. -/
theorem overwritePrefix_getD (f : Nat → ℚ) (buf : List ℚ) (n i : Nat)
    (hi : i < n) (hib : i < buf.length) :
    (overwritePrefix f buf n).getD i 0 = f i := by
  induction buf generalizing f n i with
  | nil => simp at hib
  | cons x rest ih =>
    cases n with
    | zero => omega
    | succ n =>
      cases i with
      | zero => rfl
      | succ i =>
        exact ih (fun j => f (j + 1)) n i (Nat.lt_of_succ_lt_succ hi)
          (Nat.lt_of_succ_lt_succ (by simpa using hib))

/-- `getD` commutes with `take` below the cut. -/
theorem take_getD (l : List ℚ) (n i : Nat) (hi : i < n) :
    (l.take n).getD i 0 = l.getD i 0 := by
  induction l generalizing n i with
  | nil => cases n <;> rfl
  | cons x rest ih =>
    cases n with
    | zero => omega
    | succ n =>
      cases i with
      | zero => rfl
      | succ i => exact ih n i (Nat.lt_of_succ_lt_succ hi)

/-- The C5 contract of one render call with result `r`: exactly `2 * frames`
samples, each the engine's int16 sample divided by 32768; a fresh buffer is
allocated iff the owned one was absent/too small, and the old pointer is
freed iff that reallocation happened while a truthy pointer was owned. -/
def RenderContract (o : RenderOracle) (st : CoreState) (frames : Nat)
    (r : CoreState × List CoreEff × List ℚ) : Prop :=
  r.2.2.length = 2 * frames ∧
  (∀ i, i < 2 * frames → r.2.2.getD i 0 = (o.sampleAt i : ℚ) / 32768) ∧
  ((∃ b, CoreEff.mallocBuf b ∈ r.2.1) ↔ needRealloc st (frames * 2) = true) ∧
  ((∃ p, CoreEff.freeBuf p ∈ r.2.1) ↔
    needRealloc st (frames * 2) = true ∧ ptrTruthy st.audioBufferPtr = true)

/-- C5: for every initialized session and frame count, `generate` and
`play` both return exactly `2 * frames` samples, each equal to the engine's
int16 sample divided by 32768, and reallocate (freeing the old buffer)
exactly when the owned buffer is absent or smaller than `frames * 2`. -/
theorem claim_C5 (o : RenderOracle) (st : CoreState) (frames : Nat)
    (h : 1 ≤ frames) :
    RenderContract o st frames (coreGenerate o st frames) ∧
    RenderContract o st frames (corePlay o st frames) := by
  constructor <;>
  · simp only [RenderContract, coreGenerate, corePlay]
    by_cases hn : needRealloc st (frames * 2) = true
    · refine ⟨?_, ?_, ?_, ?_⟩
      · simp only [hn, if_true]
        rw [List.length_take, overwritePrefix_length, List.length_replicate]
        omega
      · intro i hi
        simp only [hn, if_true]
        rw [take_getD _ _ _ (by omega),
          overwritePrefix_getD _ _ _ _ (by omega) (by rw [List.length_replicate]; omega)]
      · simp only [hn, if_true, iff_true]
        exact ⟨frames * 2 * 2, by by_cases hp : ptrTruthy st.audioBufferPtr = true <;>
          simp [hp]⟩
      · simp only [hn, true_and]
        by_cases hp : ptrTruthy st.audioBufferPtr = true <;> simp [hp]
    · have hn0 : needRealloc st (frames * 2) = false := by
        revert hn; cases needRealloc st (frames * 2) <;> simp
      have hlen : frames * 2 ≤ (st.audioBuffer.getD []).length := by
        have := hn0
        simp only [needRealloc, Bool.or_eq_false_iff, Bool.not_eq_false',
          decide_eq_false_iff_not, Nat.not_lt] at this
        exact this.2
      refine ⟨?_, ?_, ?_, ?_⟩
      · simp only [hn0, Bool.false_eq_true, if_false]
        rw [List.length_take, overwritePrefix_length]
        omega
      · intro i hi
        simp only [hn0, Bool.false_eq_true, if_false]
        rw [take_getD _ _ _ (by omega),
          overwritePrefix_getD _ _ _ _ (by omega) (by omega)]
      · simp [hn0]
      · simp [hn0]

/-! ### Main-thread one-shot handler registry (`AdlMidi` in libadlmidi.js)

`#messageHandlers` maps a message tag to a set of wrapped handlers; the
wrapper deletes itself from the set before invoking the user handler.
Handlers are opaque ids here; `regs id` gives the registrations handler
`id` performs re-entrantly while running (a re-entrant `#send` posts to the
worklet and cannot invoke handlers synchronously, so it only shows up as a
later incoming message in the trace). -/

/-- The handler registry: one `(tag, id)` entry per registered wrapped
handler. -/
abbrev Registry := List (String × Nat)

/-- Handlers currently registered for tag `t`, in registration order. -/
def lookupTag (reg : Registry) (t : String) : List Nat :=
  (reg.filter (fun p => p.1 == t)).map (fun p => p.2)

/-- The wrapper's self-deletion
`this.#messageHandlers.get(type)?.delete(wrappedHandler)`. -/
def removeHandler (reg : Registry) (t : String) (id : Nat) : Registry :=
  reg.filter (fun p => !(p.1 == t && p.2 == id))

/-- `AdlMidi.#onceMessage`: add a wrapped handler for `t`. -/
def onceMessage (reg : Registry) (t : String) (id : Nat) : Registry :=
  reg ++ [(t, id)]

/-- Fire the pending handlers in order: each deletes itself from the
registry first, then runs, adding its re-entrant registrations. The pending
list is the snapshot at dispatch start; a handler freshly registered for
the same tag during dispatch (which JS `Set.forEach` would also visit) only
fires on a later message here — immaterial for at-most-once, since such a
handler is a fresh closure distinct from any already-registered one. -/
def fireAll (regs : Nat → List (String × Nat)) (t : String) :
    List Nat → Registry → Registry
  | [], reg => reg
  | id :: rest, reg => fireAll regs t rest (removeHandler reg t id ++ regs id)

/-- `AdlMidi.#handleMessage`: look up the tag's handlers and fire them all
(an absent tag fires nothing); returns the new registry and the ids
invoked. -/
def clientStep (regs : Nat → List (String × Nat)) (reg : Registry) (t : String) :
    Registry × List Nat :=
  (fireAll regs t (lookupTag reg t) reg, lookupTag reg t)

/-- Deliver a sequence of incoming messages, accumulating the invocation
log. -/
def runMsgs (regs : Nat → List (String × Nat)) (reg : Registry) :
    List String → Registry × List Nat
  | [] => (reg, [])
  | t :: ts =>
    let s := clientStep regs reg t
    let r := runMsgs regs s.1 ts
    (r.1, s.2 ++ r.2)

/-- Number of registry entries carrying handler id `id`. -/
def countOcc (id : Nat) : Registry → Nat
  | [] => 0
  | p :: rest => cond (p.2 == id) 1 0 + countOcc id rest

/-- Number of registry entries registering `id` under tag `t`. -/
def pairCount (t : String) (id : Nat) : Registry → Nat
  | [] => 0
  | p :: rest => cond (p.1 == t && p.2 == id) 1 0 + pairCount t id rest

theorem countOcc_cons (id : Nat) (p : String × Nat) (rest : Registry) :
    countOcc id (p :: rest) = cond (p.2 == id) 1 0 + countOcc id rest := rfl

theorem pairCount_cons (t : String) (id : Nat) (p : String × Nat) (rest : Registry) :
    pairCount t id (p :: rest) =
      cond (p.1 == t && p.2 == id) 1 0 + pairCount t id rest := rfl

theorem removeHandler_cons (reg : Registry) (t : String) (id : Nat) (p : String × Nat) :
    removeHandler (p :: reg) t id =
      if !(p.1 == t && p.2 == id) then p :: removeHandler reg t id
      else removeHandler reg t id := by
  unfold removeHandler
  rw [List.filter_cons]

theorem lookupTag_cons (t : String) (p : String × Nat) (rest : Registry) :
    lookupTag (p :: rest) t =
      if p.1 == t then p.2 :: lookupTag rest t else lookupTag rest t := by
  unfold lookupTag
  rw [List.filter_cons]
  by_cases h1 : p.1 = t
  · rw [if_pos (beq_iff_eq.mpr h1), if_pos (beq_iff_eq.mpr h1), List.map_cons]
  · rw [if_neg (by simpa using h1), if_neg (by simpa using h1)]

theorem lookupTag_count (reg : Registry) (t : String) (id : Nat) :
    (lookupTag reg t).count id = pairCount t id reg := by
  induction reg with
  | nil => rfl
  | cons p rest ih =>
    by_cases h1 : p.1 = t <;> by_cases h2 : p.2 = id
    · have b1 : (p.1 == t) = true := beq_iff_eq.mpr h1
      have b2 : (p.2 == id) = true := beq_iff_eq.mpr h2
      have b2r : (id == p.2) = true := beq_iff_eq.mpr h2.symm
      simp only [lookupTag_cons, pairCount_cons, List.count_cons, b1, b2, b2r, ih,
        Bool.true_and, Bool.false_and, Bool.and_true, Bool.and_false, Bool.and_self, Bool.not_true, Bool.not_false, Bool.cond_true, Bool.cond_false, eq_self_iff_true, Bool.false_eq_true, if_true, if_false]
      omega
    · have b1 : (p.1 == t) = true := beq_iff_eq.mpr h1
      have b2 : (p.2 == id) = false := by simpa using h2
      have b2r : (id == p.2) = false := by simpa using fun e : id = p.2 => h2 e.symm
      simp only [lookupTag_cons, pairCount_cons, List.count_cons, b1, b2, b2r, ih,
        Bool.true_and, Bool.false_and, Bool.and_true, Bool.and_false, Bool.and_self, Bool.not_true, Bool.not_false, Bool.cond_true, Bool.cond_false, eq_self_iff_true, Bool.false_eq_true, if_true, if_false]
      omega
    · have b1 : (p.1 == t) = false := by simpa using h1
      simp only [lookupTag_cons, pairCount_cons, b1, ih,
        Bool.true_and, Bool.false_and, Bool.and_true, Bool.and_false, Bool.and_self, Bool.not_true, Bool.not_false, Bool.cond_true, Bool.cond_false, eq_self_iff_true, Bool.false_eq_true, if_true, if_false]
      omega
    · have b1 : (p.1 == t) = false := by simpa using h1
      simp only [lookupTag_cons, pairCount_cons, b1, ih,
        Bool.true_and, Bool.false_and, Bool.and_true, Bool.and_false, Bool.and_self, Bool.not_true, Bool.not_false, Bool.cond_true, Bool.cond_false, eq_self_iff_true, Bool.false_eq_true, if_true, if_false]
      omega

theorem pairCount_le_countOcc (reg : Registry) (t : String) (id : Nat) :
    pairCount t id reg ≤ countOcc id reg := by
  induction reg with
  | nil => exact Nat.le_refl 0
  | cons p rest ih =>
    by_cases h1 : p.1 = t <;> by_cases h2 : p.2 = id
    · have b1 : (p.1 == t) = true := beq_iff_eq.mpr h1
      have b2 : (p.2 == id) = true := beq_iff_eq.mpr h2
      simp only [pairCount_cons, countOcc_cons, b1, b2, Bool.true_and, Bool.false_and, Bool.and_true, Bool.and_false, Bool.and_self, Bool.not_true, Bool.not_false, Bool.cond_true, Bool.cond_false, eq_self_iff_true, Bool.false_eq_true, if_true, if_false]
      omega
    · have b1 : (p.1 == t) = true := beq_iff_eq.mpr h1
      have b2 : (p.2 == id) = false := by simpa using h2
      simp only [pairCount_cons, countOcc_cons, b1, b2, Bool.true_and, Bool.false_and, Bool.and_true, Bool.and_false, Bool.and_self, Bool.not_true, Bool.not_false, Bool.cond_true, Bool.cond_false, eq_self_iff_true, Bool.false_eq_true, if_true, if_false]
      omega
    · have b1 : (p.1 == t) = false := by simpa using h1
      have b2 : (p.2 == id) = true := beq_iff_eq.mpr h2
      simp only [pairCount_cons, countOcc_cons, b1, b2, Bool.true_and, Bool.false_and, Bool.and_true, Bool.and_false, Bool.and_self, Bool.not_true, Bool.not_false, Bool.cond_true, Bool.cond_false, eq_self_iff_true, Bool.false_eq_true, if_true, if_false]
      omega
    · have b1 : (p.1 == t) = false := by simpa using h1
      have b2 : (p.2 == id) = false := by simpa using h2
      simp only [pairCount_cons, countOcc_cons, b1, b2, Bool.true_and, Bool.false_and, Bool.and_true, Bool.and_false, Bool.and_self, Bool.not_true, Bool.not_false, Bool.cond_true, Bool.cond_false, eq_self_iff_true, Bool.false_eq_true, if_true, if_false]
      omega

theorem countOcc_append (id : Nat) (l1 l2 : Registry) :
    countOcc id (l1 ++ l2) = countOcc id l1 + countOcc id l2 := by
  induction l1 with
  | nil => simp [countOcc]
  | cons p rest ih =>
    rw [List.cons_append, countOcc_cons, countOcc_cons, ih]
    omega

theorem countOcc_zero_of_fresh (id : Nat) (l : Registry)
    (h : ∀ p ∈ l, p.2 ≠ id) : countOcc id l = 0 := by
  induction l with
  | nil => rfl
  | cons p rest ih =>
    have hp : (p.2 == id) = false := by
      simpa using h p (List.mem_cons_self p rest)
    rw [countOcc_cons, hp, Bool.cond_false,
      ih fun q hq => h q (List.mem_cons_of_mem p hq)]

theorem countOcc_remove_add_pairCount (reg : Registry) (t : String) (id : Nat) :
    countOcc id (removeHandler reg t id) + pairCount t id reg = countOcc id reg := by
  induction reg with
  | nil => rfl
  | cons p rest ih =>
    by_cases h1 : p.1 = t <;> by_cases h2 : p.2 = id
    · have b1 : (p.1 == t) = true := beq_iff_eq.mpr h1
      have b2 : (p.2 == id) = true := beq_iff_eq.mpr h2
      simp only [removeHandler_cons, pairCount_cons, countOcc_cons, b1, b2, Bool.true_and, Bool.false_and, Bool.and_true, Bool.and_false, Bool.and_self, Bool.not_true, Bool.not_false, Bool.cond_true, Bool.cond_false, eq_self_iff_true, Bool.false_eq_true, if_true, if_false]
      omega
    · have b1 : (p.1 == t) = true := beq_iff_eq.mpr h1
      have b2 : (p.2 == id) = false := by simpa using h2
      simp only [removeHandler_cons, pairCount_cons, countOcc_cons, b1, b2, Bool.true_and, Bool.false_and, Bool.and_true, Bool.and_false, Bool.and_self, Bool.not_true, Bool.not_false, Bool.cond_true, Bool.cond_false, eq_self_iff_true, Bool.false_eq_true, if_true, if_false]
      omega
    · have b1 : (p.1 == t) = false := by simpa using h1
      have b2 : (p.2 == id) = true := beq_iff_eq.mpr h2
      simp only [removeHandler_cons, pairCount_cons, countOcc_cons, b1, b2, Bool.true_and, Bool.false_and, Bool.and_true, Bool.and_false, Bool.and_self, Bool.not_true, Bool.not_false, Bool.cond_true, Bool.cond_false, eq_self_iff_true, Bool.false_eq_true, if_true, if_false]
      omega
    · have b1 : (p.1 == t) = false := by simpa using h1
      have b2 : (p.2 == id) = false := by simpa using h2
      simp only [removeHandler_cons, pairCount_cons, countOcc_cons, b1, b2, Bool.true_and, Bool.false_and, Bool.and_true, Bool.and_false, Bool.and_self, Bool.not_true, Bool.not_false, Bool.cond_true, Bool.cond_false, eq_self_iff_true, Bool.false_eq_true, if_true, if_false]
      omega

theorem countOcc_remove_ne (reg : Registry) (t : String) (id id0 : Nat)
    (h : id ≠ id0) : countOcc id0 (removeHandler reg t id) = countOcc id0 reg := by
  induction reg with
  | nil => rfl
  | cons p rest ih =>
    by_cases h1 : p.1 = t <;> by_cases h2 : p.2 = id
    · have b1 : (p.1 == t) = true := beq_iff_eq.mpr h1
      have b2 : (p.2 == id) = true := beq_iff_eq.mpr h2
      have b20 : (p.2 == id0) = false := by simp [h2, h]
      simp only [removeHandler_cons, countOcc_cons, b1, b2, b20, ih, Bool.true_and, Bool.false_and, Bool.and_true, Bool.and_false, Bool.and_self, Bool.not_true, Bool.not_false, Bool.cond_true, Bool.cond_false, eq_self_iff_true, Bool.false_eq_true, if_true, if_false]
      omega
    · have b1 : (p.1 == t) = true := beq_iff_eq.mpr h1
      have b2 : (p.2 == id) = false := by simpa using h2
      simp only [removeHandler_cons, countOcc_cons, b1, b2, ih, Bool.true_and, Bool.false_and, Bool.and_true, Bool.and_false, Bool.and_self, Bool.not_true, Bool.not_false, Bool.cond_true, Bool.cond_false, eq_self_iff_true, Bool.false_eq_true, if_true, if_false]
    · have b1 : (p.1 == t) = false := by simpa using h1
      simp only [removeHandler_cons, countOcc_cons, b1, ih, Bool.true_and, Bool.false_and, Bool.and_true, Bool.and_false, Bool.and_self, Bool.not_true, Bool.not_false, Bool.cond_true, Bool.cond_false, eq_self_iff_true, Bool.false_eq_true, if_true, if_false]
    · have b1 : (p.1 == t) = false := by simpa using h1
      simp only [removeHandler_cons, countOcc_cons, b1, ih, Bool.true_and, Bool.false_and, Bool.and_true, Bool.and_false, Bool.and_self, Bool.not_true, Bool.not_false, Bool.cond_true, Bool.cond_false, eq_self_iff_true, Bool.false_eq_true, if_true, if_false]

theorem pairCount_remove_ne (reg : Registry) (t : String) (id id0 : Nat)
    (h : id ≠ id0) : pairCount t id0 (removeHandler reg t id) = pairCount t id0 reg := by
  induction reg with
  | nil => rfl
  | cons p rest ih =>
    by_cases h1 : p.1 = t <;> by_cases h2 : p.2 = id
    · have b1 : (p.1 == t) = true := beq_iff_eq.mpr h1
      have b2 : (p.2 == id) = true := beq_iff_eq.mpr h2
      have b20 : (p.2 == id0) = false := by simp [h2, h]
      simp only [removeHandler_cons, pairCount_cons, b1, b2, b20, ih, Bool.true_and, Bool.false_and, Bool.and_true, Bool.and_false, Bool.and_self, Bool.not_true, Bool.not_false, Bool.cond_true, Bool.cond_false, eq_self_iff_true, Bool.false_eq_true, if_true, if_false]
      omega
    · have b1 : (p.1 == t) = true := beq_iff_eq.mpr h1
      have b2 : (p.2 == id) = false := by simpa using h2
      simp only [removeHandler_cons, pairCount_cons, b1, b2, ih, Bool.true_and, Bool.false_and, Bool.and_true, Bool.and_false, Bool.and_self, Bool.not_true, Bool.not_false, Bool.cond_true, Bool.cond_false, eq_self_iff_true, Bool.false_eq_true, if_true, if_false]
    · have b1 : (p.1 == t) = false := by simpa using h1
      simp only [removeHandler_cons, pairCount_cons, b1, ih, Bool.true_and, Bool.false_and, Bool.and_true, Bool.and_false, Bool.and_self, Bool.not_true, Bool.not_false, Bool.cond_true, Bool.cond_false, eq_self_iff_true, Bool.false_eq_true, if_true, if_false]
    · have b1 : (p.1 == t) = false := by simpa using h1
      simp only [removeHandler_cons, pairCount_cons, b1, ih, Bool.true_and, Bool.false_and, Bool.and_true, Bool.and_false, Bool.and_self, Bool.not_true, Bool.not_false, Bool.cond_true, Bool.cond_false, eq_self_iff_true, Bool.false_eq_true, if_true, if_false]

theorem pairCount_append (t : String) (id : Nat) (l1 l2 : Registry) :
    pairCount t id (l1 ++ l2) = pairCount t id l1 + pairCount t id l2 := by
  induction l1 with
  | nil => simp [pairCount]
  | cons p rest ih =>
    rw [List.cons_append, pairCount_cons, pairCount_cons, ih]
    omega

/-- Core accounting of one dispatch: firing a pending list whose `id0`
occurrences are all registered under tag `t` never lets the total number of
`id0` invocations plus surviving registrations exceed the registrations
before the dispatch (fresh re-entrant registrations never reuse `id0`). -/
theorem fireAll_key (regs : Nat → List (String × Nat)) (t : String) (id0 : Nat)
    (fresh : ∀ n p, p ∈ regs n → p.2 ≠ id0) :
    ∀ (pending : List Nat) (reg : Registry),
      countOcc id0 reg ≤ 1 →
      pending.count id0 ≤ pairCount t id0 reg →
      pending.count id0 + countOcc id0 (fireAll regs t pending reg) ≤ countOcc id0 reg := by
  intro pending
  induction pending with
  | nil =>
    intro reg h1 h2
    simp only [fireAll, List.count_nil]
    omega
  | cons id rest ih =>
    intro reg h1 h2
    have hfreshz : countOcc id0 (regs id) = 0 :=
      countOcc_zero_of_fresh id0 (regs id) (fun p hp => fresh id p hp)
    by_cases hid : id = id0
    · subst hid
      have hcc : (id :: rest).count id = rest.count id + 1 := by
        rw [List.count_cons_self]
      have hple : pairCount t id reg ≤ countOcc id reg := pairCount_le_countOcc reg t id
      have hrem : countOcc id (removeHandler reg t id) + pairCount t id reg =
          countOcc id reg := countOcc_remove_add_pairCount reg t id
      have hreg1 : countOcc id (removeHandler reg t id ++ regs id) = 0 := by
        rw [countOcc_append, hfreshz]
        omega
      have hpair1 : pairCount t id (removeHandler reg t id ++ regs id) = 0 := by
        have := pairCount_le_countOcc (removeHandler reg t id ++ regs id) t id
        omega
      have ihh := ih (removeHandler reg t id ++ regs id) (by omega) (by omega)
      simp only [fireAll]
      omega
    · have hcc : (id :: rest).count id0 = rest.count id0 := by
        rw [List.count_cons_of_ne (fun e => hid e.symm)]
      have hco : countOcc id0 (removeHandler reg t id) = countOcc id0 reg :=
        countOcc_remove_ne reg t id id0 hid
      have hpc : pairCount t id0 (removeHandler reg t id) = pairCount t id0 reg :=
        pairCount_remove_ne reg t id id0 hid
      have hreg1 : countOcc id0 (removeHandler reg t id ++ regs id) = countOcc id0 reg := by
        rw [countOcc_append, hco, hfreshz]
        omega
      have hpair1 : pairCount t id0 reg ≤ pairCount t id0 (removeHandler reg t id ++ regs id) := by
        rw [pairCount_append, hpc]
        omega
      have ihh := ih (removeHandler reg t id ++ regs id) (by omega) (by omega)
      simp only [fireAll]
      omega

/-- A tag with no registered handler is silently dropped: registry
unchanged, nothing invoked. -/
theorem clientStep_silent (regs : Nat → List (String × Nat)) (reg : Registry)
    (t : String) (h : lookupTag reg t = []) : clientStep regs reg t = (reg, []) := by
  unfold clientStep
  rw [h]
  rfl

/-- Across a whole message trace, invocations of `id0` plus its surviving
registrations never exceed its initial registrations. -/
theorem runMsgs_once (regs : Nat → List (String × Nat)) (id0 : Nat)
    (fresh : ∀ n p, p ∈ regs n → p.2 ≠ id0) :
    ∀ (msgs : List String) (reg : Registry), countOcc id0 reg ≤ 1 →
      (runMsgs regs reg msgs).2.count id0 + countOcc id0 (runMsgs regs reg msgs).1 ≤
        countOcc id0 reg := by
  intro msgs
  induction msgs with
  | nil =>
    intro reg h1
    simp only [runMsgs, List.count_nil]
    omega
  | cons tmsg ts ihm =>
    intro reg h1
    have hstep : (clientStep regs reg tmsg).2.count id0 +
        countOcc id0 (clientStep regs reg tmsg).1 ≤ countOcc id0 reg := by
      have hlk : (lookupTag reg tmsg).count id0 = pairCount tmsg id0 reg :=
        lookupTag_count reg tmsg id0
      exact fireAll_key regs tmsg id0 fresh (lookupTag reg tmsg) reg h1 (by omega)
    have hs1 : countOcc id0 (clientStep regs reg tmsg).1 ≤ 1 := by omega
    have ihh := ihm (clientStep regs reg tmsg).1 hs1
    simp only [runMsgs, List.count_append]
    omega

/-- C4: a one-shot handler is removed from the registry atomically with its
first invocation, so across any message trace (including re-entrant sends,
which only enqueue later messages) it fires at most once per registration;
and a message whose tag has no registered handler is silently dropped. -/
theorem claim_C4 :
    (∀ (regs : Nat → List (String × Nat)) (reg : Registry) (t : String),
      lookupTag reg t = [] → clientStep regs reg t = (reg, [])) ∧
    (∀ (regs : Nat → List (String × Nat)) (reg : Registry) (t : String),
      (clientStep regs reg t).2 = lookupTag reg t) ∧
    (∀ (regs : Nat → List (String × Nat)) (id0 : Nat) (reg : Registry)
        (msgs : List String),
      countOcc id0 reg ≤ 1 →
      (∀ n p, p ∈ regs n → p.2 ≠ id0) →
      (runMsgs regs reg msgs).2.count id0 ≤ 1) := by
  refine ⟨clientStep_silent, fun regs reg t => rfl, ?_⟩
  intro regs id0 reg msgs h1 fresh
  have := runMsgs_once regs id0 fresh msgs reg h1
  omega

/-- Witness for C4: the `ready` handler with id 5 fires once even though
two further `ready` messages arrive, and an unhandled tag is dropped. -/
theorem claim_C4_w :
    clientStep (fun _ => []) (onceMessage [] "ready" 5) "bankSet" =
      (onceMessage [] "ready" 5, []) ∧
    (runMsgs (fun _ => []) (onceMessage [] "ready" 5)
      ["ready", "ready", "ready"]).2.count 5 ≤ 1 :=
  ⟨claim_C4.1 (fun _ => []) (onceMessage [] "ready" 5) "bankSet" (by decide),
   claim_C4.2.2 (fun _ => []) 5 (onceMessage [] "ready" 5) ["ready", "ready", "ready"]
     (by decide) (fun n p hp => by cases hp)⟩

/-! ### Initialization handshake (`AdlMidi.init` in libadlmidi.js)

`init` registers one-shot handlers for `ready` and `error` and starts a
10-second timer. A JS Promise settles once (later resolve/reject calls are
no-ops), `clearTimeout` stops a pending timer, and the timer callback runs
only while the timer is still active; the events `ready`, `error` and
timeout are delivered one at a time on the event loop. -/

/-- Outcome of the init promise. -/
inductive InitOutcome where
  | resolvedOk
  | rejectedError (message : String)
  | rejectedTimeout
deriving DecidableEq

/-- Events the handshake can observe after `init` returns its promise. -/
inductive InitEvent where
  | readyEv
  | errorEv (message : String)
  | timeoutEv
deriving DecidableEq

/-- Handshake state: the promise outcome (`none` while pending), whether
the 10-second timer is still pending, which one-shot handlers are still
registered, and the `#ready` flag. -/
structure InitState where
  outcome : Option InitOutcome
  timerActive : Bool
  readyHandlerOn : Bool
  errorHandlerOn : Bool
  readyFlag : Bool
deriving DecidableEq

/-- State right after `init` set up the handshake: both one-shot handlers
registered, the timer started, the promise pending. -/
def initHandshakeStart : InitState :=
  { outcome := none, timerActive := true
    readyHandlerOn := true, errorHandlerOn := true, readyFlag := false }

/-- A promise settles only once. -/
def settleOnce (st : InitState) (oc : InitOutcome) : Option InitOutcome :=
  match st.outcome with
  | some o => some o
  | none => some oc

/-- One handshake event. A `ready` message fires the one-shot ready handler
(if still registered): it cancels the timer, sets `#ready` and resolves. An
`error` message fires the one-shot error handler: it cancels the timer and
rejects with the message. The timeout callback runs only while the timer is
active and rejects with the timeout failure. -/
def initStep (st : InitState) (e : InitEvent) : InitState :=
  match e with
  | InitEvent.readyEv =>
    if st.readyHandlerOn then
      { st with readyHandlerOn := false, timerActive := false, readyFlag := true
                outcome := settleOnce st InitOutcome.resolvedOk }
    else st
  | InitEvent.errorEv m =>
    if st.errorHandlerOn then
      { st with errorHandlerOn := false, timerActive := false
                outcome := settleOnce st (InitOutcome.rejectedError m) }
    else st
  | InitEvent.timeoutEv =>
    if st.timerActive then
      { st with timerActive := false
                outcome := settleOnce st InitOutcome.rejectedTimeout }
    else st

/-- Deliver a sequence of handshake events. -/
def runInit (es : List InitEvent) : InitState :=
  es.foldl initStep initHandshakeStart

/-- The outcome each event produces when it wins the race. -/
def outcomeOf : InitEvent → InitOutcome
  | InitEvent.readyEv => InitOutcome.resolvedOk
  | InitEvent.errorEv m => InitOutcome.rejectedError m
  | InitEvent.timeoutEv => InitOutcome.rejectedTimeout

/-- A settled handshake outcome is never changed by any later event. -/
theorem initStep_settled (st : InitState) (e : InitEvent) (o : InitOutcome)
    (h : st.outcome = some o) : (initStep st e).outcome = some o := by
  cases e <;> simp only [initStep] <;> split <;> simp [settleOnce, h]

theorem runInit_settled (st : InitState) (o : InitOutcome)
    (h : st.outcome = some o) :
    ∀ es : List InitEvent, (es.foldl initStep st).outcome = some o := by
  intro es
  induction es generalizing st with
  | nil => exact h
  | cons e rest ih => exact ih (initStep st e) (initStep_settled st e o h)

/-- C6: `init` registers one-shot handlers for both `ready` and `error` and
starts the timer; whichever of ready, error, timeout arrives first fixes
the outcome (resolve, reject with the error message, reject with the
timeout failure respectively) for the whole rest of the trace; the timer is
cancelled on ready and on error; and a late ready or error after the
timeout leaves the timeout rejection in place. -/
theorem claim_C6 :
    (initHandshakeStart.readyHandlerOn = true ∧
     initHandshakeStart.errorHandlerOn = true ∧
     initHandshakeStart.timerActive = true ∧
     initHandshakeStart.outcome = none) ∧
    (∀ (e : InitEvent) (es : List InitEvent),
      (runInit (e :: es)).outcome = some (outcomeOf e)) ∧
    ((initStep initHandshakeStart InitEvent.readyEv).timerActive = false ∧
     ∀ m, (initStep initHandshakeStart (InitEvent.errorEv m)).timerActive = false) ∧
    (∀ (st : InitState) (e : InitEvent) (o : InitOutcome), st.outcome = some o →
      (initStep st e).outcome = some o) ∧
    (∀ es : List InitEvent,
      (runInit (InitEvent.timeoutEv :: es)).outcome = some InitOutcome.rejectedTimeout) := by
  refine ⟨⟨rfl, rfl, rfl, rfl⟩, ?_, ⟨rfl, fun m => rfl⟩, initStep_settled, ?_⟩
  · intro e es
    have hfirst : (initStep initHandshakeStart e).outcome = some (outcomeOf e) := by
      cases e <;> rfl
    exact runInit_settled (initStep initHandshakeStart e) (outcomeOf e) hfirst es
  · intro es
    exact runInit_settled (initStep initHandshakeStart InitEvent.timeoutEv)
      InitOutcome.rejectedTimeout rfl es

/-- Witness for C6: a late error after ready, and a late ready after
timeout. -/
theorem claim_C6_w :
    (runInit [InitEvent.readyEv, InitEvent.errorEv "boom"]).outcome =
      some InitOutcome.resolvedOk ∧
    (runInit [InitEvent.timeoutEv, InitEvent.readyEv]).outcome =
      some InitOutcome.rejectedTimeout :=
  ⟨claim_C6.2.1 InitEvent.readyEv [InitEvent.errorEv "boom"],
   claim_C6.2.2.2.2 [InitEvent.readyEv]⟩

/-! ### Concrete instances for the remaining witnesses -/

/-- A concrete engine oracle where every engine call succeeds. -/
def sampleOracle : EngOracle where
  atEnd := true
  setBankResult := 0
  getBankResult := 0
  getInstrumentResult := 0
  instrumentBytes := List.replicate 40 0
  setInstrumentResult := 0
  switchEmulatorResult := 0
  openDataResult := 0
  openBankDataResult := 0
  positionSec := 0
  durationSec := 0
  fourOpChannels := 0
  autoArpeggioOn := false
  chanAllocMode := 0
  emulatorNameStr := "Nuked OPL3"
  libraryVersionStr := "1.5.1"
  versionTriple := (1, 5, 1)
  numChipsVal := 4
  numChipsObtainedVal := 4
  volumeModelVal := 0
  bankList := []
  musicTitleStr := ""
  musicCopyrightStr := ""

/-- The oracle whose bank resolution fails. -/
def failBankOracle : EngOracle :=
  { sampleOracle with getBankResult := 1 }

/-- The processor state after a successful `initWasm`. -/
def readyState : ProcState :=
  { initProcState with ready := true }

/-- Witness for C3: `stop` from the ready state. -/
theorem claim_C3_w :
    handleMessage sampleOracle readyState Msg.stopMsg =
      ({ readyState with playMode := Mode.realtime },
       [EngCall.mk "adl_positionRewind" [], EngCall.mk "adl_panic" []], []) :=
  claim_C3.2.2.1 sampleOracle readyState rfl

/-- Witness for C10: a `panic` sent before ready is ignored, and `ping`
answers `pong` with the ready flag. -/
theorem claim_C10_w :
    handleMessage sampleOracle initProcState Msg.panicMsg = (initProcState, [], []) ∧
    handleMessage sampleOracle initProcState Msg.ping =
      (initProcState, [], [Reply.pong false]) :=
  ⟨claim_C10.1 sampleOracle initProcState Msg.panicMsg rfl (by decide),
   claim_C10.2 sampleOracle initProcState⟩

/-- Witness for C7: with both engine calls succeeding, the write is
followed by the full reset. -/
theorem claim_C7_w :
    (procSetInstrument sampleOracle (BankId.mk false 0 0) 0 defaultInstrument).2 =
      [getBankCall (BankId.mk false 0 0),
       EngCall.mk "adl_setInstrument"
         ((0 : Int) :: (encodeInstrument defaultInstrument).map (fun b => (b : Int))),
       EngCall.mk "adl_reset" []] :=
  (claim_C7 sampleOracle (BankId.mk false 0 0) 0 defaultInstrument).2.2.1 rfl rfl

/-- Witness for C8: a successful read decodes the heap bytes, and a failed
bank resolution yields `null` in AdlMidiCore. -/
theorem claim_C8_w :
    (procGetInstrument sampleOracle (BankId.mk false 0 0) 0).1 =
      GetInstResult.ok (decodeInstrument sampleOracle.instrumentBytes) ∧
    coreGetInstrument failBankOracle (BankId.mk false 0 0) 0 = none :=
  ⟨(claim_C8.1 sampleOracle (BankId.mk false 0 0) 0
      (decodeInstrument sampleOracle.instrumentBytes)).mpr ⟨rfl, rfl, rfl⟩,
   claim_C8.2.2.2 failBankOracle (BankId.mk false 0 0) 0 (Or.inl (by decide))⟩

/-- A render oracle returning silence from address 1024. -/
def sampleRender : RenderOracle where
  mallocAddr := 1024
  sampleAt := fun _ => 0

/-- A fresh core session with no scratch buffer yet. -/
def coreState0 : CoreState where
  audioBuffer := none
  audioBufferPtr := none

/-- Witness for C5: one frame rendered from a fresh session. -/
theorem claim_C5_w :
    RenderContract sampleRender coreState0 1 (coreGenerate sampleRender coreState0 1) ∧
    RenderContract sampleRender coreState0 1 (corePlay sampleRender coreState0 1) :=
  claim_C5 sampleRender coreState0 1 (Nat.le_refl 1)

end Adl
